import Mathlib

/-!
Shallow embedding of the two logic-bearing parts of the repository:

* `src/util/mod.rs` — `make_spirv`, which validates a byte slice as a SPIR-V
  module (alignment of the start address, length a multiple of 4, magic word)
  and reinterprets it as a sequence of 32-bit words.  Bytes are modelled as
  `Nat` values (< 256 where it matters), the slice's start address enters as an
  explicit `addr : Nat` parameter (only its value mod 4 matters), and the
  native byte order is modelled as little-endian, the byte order of every
  platform the crate targets.  Rust panics (`assert_eq!` failures and the
  out-of-bounds index of `words[0]` on an empty slice) are modelled as
  `Except.error` carrying a panic kind and the panic's custom message text.

* `examples/boids/main.rs` — the double-buffered particle simulation.
  GPU resources are modelled by identity: a `Buffer` is an id plus its initial
  contents (`f32` literals of the source are modelled as exact rationals; no
  claim depends on float rounding), a `BindGroup` is its list of bindings, and
  `render` returns the successor state together with the list of commands
  recorded on the command encoder, in order.
-/

namespace WgpuUtil

def MAGIC_NUMBER : Nat := 0x07230203

/-- Panic classes of `make_spirv`: the two alignment `assert_eq!`s, the magic
word `assert_eq!`, and the out-of-bounds slice index `words[0]` reached on an
empty word slice. -/
inductive PanicKind
  | alignmentError
  | formatError
  | indexOutOfBounds
deriving DecidableEq

structure Panic where
  kind : PanicKind
  message : String
deriving DecidableEq

/-- Reassemble bytes into 32-bit little-endian words, greedily, four bytes per
word, dropping a trailing chunk shorter than four bytes (the `align_to` middle
part only covers whole words). -/
def bytesToWords : List Nat → List Nat
  | b0 :: b1 :: b2 :: b3 :: rest =>
      (b0 % 256 + 256 * (b1 % 256) + 65536 * (b2 % 256) + 16777216 * (b3 % 256))
        :: bytesToWords rest
  | _ => []

/-- Read a word sequence back as its little-endian byte sequence. -/
def wordsToBytes : List Nat → List Nat
  | [] => []
  | w :: rest =>
      w % 256 :: w / 256 % 256 :: w / 65536 % 256 :: w / 16777216 % 256
        :: wordsToBytes rest

/-- Number of bytes from a start address `addr` to the next 4-byte boundary,
`ptr.align_offset(4)` in the source. -/
def alignOffset (addr : Nat) : Nat := (4 - addr % 4) % 4

/-- Model of `data.align_to::<u32>()` for a slice starting at address `addr`:
the unaligned prefix bytes, the whole 32-bit words, and the trailing bytes. -/
def align_to_u32 (addr : Nat) (data : List Nat) :
    List Nat × List Nat × List Nat :=
  let off := alignOffset addr
  if data.length < off then (data, [], [])
  else
    let rest := data.drop off
    (data.take off,
     bytesToWords (rest.take (rest.length / 4 * 4)),
     rest.drop (rest.length / 4 * 4))

/-- Lowercase hexadecimal rendering, the `{:x}` of the panic format string. -/
def hexString (n : Nat) : String := String.mk (Nat.toDigits 16 n)

def offsetPanic : Panic :=
  ⟨.alignmentError, "data offset is not aligned to words!"⟩

def sizePanic : Panic :=
  ⟨.alignmentError, "data size is not aligned to words!"⟩

def magicPanic (w : Nat) : Panic :=
  ⟨.formatError,
    "wrong magic word " ++ hexString w
      ++ ". Make sure you are using a binary SPIRV file."⟩

def oobPanic : Panic :=
  ⟨.indexOutOfBounds, "index out of bounds: the len is 0 but the index is 0"⟩

/-- `make_spirv` of `src/util/mod.rs`: split the byte slice with `align_to`,
assert the unaligned prefix and suffix are empty, read `words[0]` (an
out-of-bounds panic when no whole word exists), assert it is the SPIR-V magic
number, and return the word slice. -/
def make_spirv (addr : Nat) (data : List Nat) : Except Panic (List Nat) :=
  match align_to_u32 addr data with
  | (pre, words, post) =>
    if pre ≠ [] then .error offsetPanic
    else if post ≠ [] then .error sizePanic
    else
      match words.head? with
      | none => .error oobPanic
      | some w =>
          if w ≠ MAGIC_NUMBER then .error (magicPanic w) else .ok words

theorem bytesToWords_length (l : List Nat) :
    (bytesToWords l).length = l.length / 4 := by
  match l with
  | [] => rfl
  | [_] => simp [bytesToWords]
  | [_, _] => simp [bytesToWords]
  | [_, _, _] => simp [bytesToWords]
  | _ :: _ :: _ :: _ :: rest =>
      simp only [bytesToWords, List.length_cons, bytesToWords_length rest]
      omega

theorem wordsToBytes_bytesToWords (l : List Nat)
    (hb : ∀ b ∈ l, b < 256) (hlen : l.length % 4 = 0) :
    wordsToBytes (bytesToWords l) = l := by
  match l with
  | [] => rfl
  | [_] => simp at hlen
  | [_, _] => simp at hlen
  | [_, _, _] => simp at hlen
  | b0 :: b1 :: b2 :: b3 :: rest =>
      have h0 : b0 < 256 := hb b0 (by simp)
      have h1 : b1 < 256 := hb b1 (by simp)
      have h2 : b2 < 256 := hb b2 (by simp)
      have h3 : b3 < 256 := hb b3 (by simp)
      have hrest : wordsToBytes (bytesToWords rest) = rest :=
        wordsToBytes_bytesToWords rest (fun b hbmem => hb b (by simp [hbmem]))
          (by simp at hlen; omega)
      simp only [bytesToWords, wordsToBytes, hrest]
      have e0 : b0 % 256 = b0 := Nat.mod_eq_of_lt h0
      have e1 : b1 % 256 = b1 := Nat.mod_eq_of_lt h1
      have e2 : b2 % 256 = b2 := Nat.mod_eq_of_lt h2
      have e3 : b3 % 256 = b3 := Nat.mod_eq_of_lt h3
      rw [e0, e1, e2, e3]
      have w0 : (b0 + 256 * b1 + 65536 * b2 + 16777216 * b3) % 256 = b0 := by
        omega
      have w1 : (b0 + 256 * b1 + 65536 * b2 + 16777216 * b3) / 256 % 256 = b1 := by
        omega
      have w2 : (b0 + 256 * b1 + 65536 * b2 + 16777216 * b3) / 65536 % 256 = b2 := by
        omega
      have w3 : (b0 + 256 * b1 + 65536 * b2 + 16777216 * b3) / 16777216 % 256 = b3 := by
        omega
      rw [w0, w1, w2, w3]

theorem bytesToWords_lt (l : List Nat) (w : Nat) (hw : w ∈ bytesToWords l) :
    w < 2 ^ 32 := by
  match l with
  | [] => simp [bytesToWords] at hw
  | [_] => simp [bytesToWords] at hw
  | [_, _] => simp [bytesToWords] at hw
  | [_, _, _] => simp [bytesToWords] at hw
  | b0 :: b1 :: b2 :: b3 :: rest =>
      simp only [bytesToWords, List.mem_cons] at hw
      rcases hw with h | h
      · have e0 : b0 % 256 < 256 := Nat.mod_lt _ (by omega)
        have e1 : b1 % 256 < 256 := Nat.mod_lt _ (by omega)
        have e2 : b2 % 256 < 256 := Nat.mod_lt _ (by omega)
        have e3 : b3 % 256 < 256 := Nat.mod_lt _ (by omega)
        omega
      · exact bytesToWords_lt rest w h

theorem align_to_u32_aligned (addr : Nat) (data : List Nat)
    (ha : addr % 4 = 0) (hlen : data.length % 4 = 0) :
    align_to_u32 addr data = ([], bytesToWords data, []) := by
  have hoff : alignOffset addr = 0 := by
    unfold alignOffset
    omega
  have hmul : data.length / 4 * 4 = data.length :=
    Nat.div_mul_cancel (Nat.dvd_of_mod_eq_zero hlen)
  simp [align_to_u32, hoff, hmul]

theorem align_to_u32_pre_empty_iff (addr : Nat) (data : List Nat) :
    (align_to_u32 addr data).1 = [] ↔ addr % 4 = 0 ∨ data = [] := by
  unfold align_to_u32
  by_cases hlt : data.length < alignOffset addr
  · simp only [hlt, if_true]
    constructor
    · intro h
      exact Or.inr h
    · rintro (h | h)
      · exfalso
        unfold alignOffset at hlt
        omega
      · exact h
  · simp only [hlt, if_false]
    rw [List.take_eq_nil_iff]
    unfold alignOffset
    constructor
    · rintro (h | h)
      · left
        omega
      · right
        exact h
    · rintro (h | h)
      · left
        omega
      · right
        exact h

theorem make_spirv_offset_fail (addr : Nat) (data : List Nat)
    (hne : data ≠ []) (ha : addr % 4 ≠ 0) :
    make_spirv addr data = .error offsetPanic := by
  have hpre : (align_to_u32 addr data).1 ≠ [] := by
    intro h
    rw [align_to_u32_pre_empty_iff] at h
    tauto
  unfold make_spirv
  rcases h : align_to_u32 addr data with ⟨pre, words, post⟩
  rw [h] at hpre
  simp only at hpre
  simp [hpre]

theorem make_spirv_size_fail (addr : Nat) (data : List Nat)
    (ha : addr % 4 = 0) (hlen : data.length % 4 ≠ 0) :
    make_spirv addr data = .error sizePanic := by
  have hoff : alignOffset addr = 0 := by
    unfold alignOffset
    omega
  have hpost : (align_to_u32 addr data).2.2 ≠ [] := by
    simp only [align_to_u32, hoff, Nat.not_lt_zero, if_false, List.drop_zero]
    intro h
    rw [List.drop_eq_nil_iff] at h
    omega
  have hpre : (align_to_u32 addr data).1 = [] := by
    simp [align_to_u32, hoff]
  unfold make_spirv
  rcases h : align_to_u32 addr data with ⟨pre, words, post⟩
  rw [h] at hpre hpost
  simp only at hpre hpost
  simp [hpre, hpost]

theorem make_spirv_aligned (addr : Nat) (data : List Nat)
    (ha : addr % 4 = 0) (hlen : data.length % 4 = 0) :
    make_spirv addr data =
      match (bytesToWords data).head? with
      | none => .error oobPanic
      | some w =>
          if w ≠ MAGIC_NUMBER then .error (magicPanic w)
          else .ok (bytesToWords data) := by
  unfold make_spirv
  rw [align_to_u32_aligned addr data ha hlen]
  simp

theorem head?_eq_getD_of_ne_nil (l : List Nat) (h : l ≠ []) :
    l.head? = some (l.getD 0 0) := by
  cases l with
  | nil => exact absurd rfl h
  | cons a t => rfl

theorem bytesToWords_ne_nil (data : List Nat) (hne : data ≠ [])
    (h4 : data.length % 4 = 0) : bytesToWords data ≠ [] := by
  intro hnil
  have hl := bytesToWords_length data
  rw [hnil] at hl
  simp only [List.length_nil] at hl
  have hz : data.length = 0 := by omega
  exact hne (List.length_eq_zero.mp hz)

/-- C2: on a word-aligned byte sequence of length `4*k` (`k ≥ 1`) whose first
little-endian 32-bit word is the magic number `0x07230203`, `make_spirv`
succeeds and returns exactly `k` 32-bit words whose byte content, read back,
is exactly the input bytes. -/
theorem make_spirv_roundtrip (k addr : Nat) (data : List Nat)
    (_hk : 1 ≤ k) (hlen : data.length = 4 * k) (haddr : addr % 4 = 0)
    (hbytes : ∀ b ∈ data, b < 256)
    (hmagic : (bytesToWords data).head? = some MAGIC_NUMBER) :
    make_spirv addr data = .ok (bytesToWords data) ∧
    (bytesToWords data).length = k ∧
    (∀ w ∈ bytesToWords data, w < 2 ^ 32) ∧
    wordsToBytes (bytesToWords data) = data := by
  have hmod : data.length % 4 = 0 := by omega
  have hsp := make_spirv_aligned addr data haddr hmod
  rw [hmagic] at hsp
  simp only [ne_eq, not_true_eq_false, if_false, ite_false] at hsp
  refine ⟨hsp, ?_, ?_, wordsToBytes_bytesToWords data hbytes hmod⟩
  · rw [bytesToWords_length]
    omega
  · intro w hw
    exact bytesToWords_lt data w hw

theorem make_spirv_roundtrip_witness :
    make_spirv 0 [3, 2, 35, 7] = .ok [119734787] ∧
    ([119734787] : List Nat).length = 1 ∧
    (∀ w ∈ ([119734787] : List Nat), w < 2 ^ 32) ∧
    wordsToBytes [119734787] = [3, 2, 35, 7] := by
  have e : bytesToWords [3, 2, 35, 7] = [119734787] := by decide
  have h := make_spirv_roundtrip 1 0 [3, 2, 35, 7] (by decide) (by decide)
    (by decide) (by decide) (by decide)
  rw [e] at h
  exact h

/-- C3 (amended): on a nonempty input, `make_spirv` performs its three checks
in order — start-offset alignment, length a multiple of 4, magic word — and
fails with the alignment panic "data offset is not aligned to words!" for the
first, the alignment panic "data size is not aligned to words!" for the
second, and a format panic whose message is "wrong magic word " followed by
the offending word in lowercase hex and ". Make sure you are using a binary
SPIRV file." for the third; it succeeds if and only if all three checks
pass. -/
theorem make_spirv_checks_in_order (addr : Nat) (data : List Nat)
    (hne : data ≠ []) :
    (addr % 4 ≠ 0 → make_spirv addr data = .error offsetPanic) ∧
    (addr % 4 = 0 → data.length % 4 ≠ 0 →
      make_spirv addr data = .error sizePanic) ∧
    (addr % 4 = 0 → data.length % 4 = 0 →
      make_spirv addr data =
        (if (bytesToWords data).getD 0 0 = MAGIC_NUMBER
         then .ok (bytesToWords data)
         else .error (magicPanic ((bytesToWords data).getD 0 0)))) ∧
    ((∃ ws, make_spirv addr data = .ok ws) ↔
      (addr % 4 = 0 ∧ data.length % 4 = 0 ∧
        (bytesToWords data).getD 0 0 = MAGIC_NUMBER)) ∧
    offsetPanic = ⟨.alignmentError, "data offset is not aligned to words!"⟩ ∧
    sizePanic = ⟨.alignmentError, "data size is not aligned to words!"⟩ ∧
    (∀ w, (magicPanic w).kind = .formatError) := by
  have third : addr % 4 = 0 → data.length % 4 = 0 →
      make_spirv addr data =
        (if (bytesToWords data).getD 0 0 = MAGIC_NUMBER
         then .ok (bytesToWords data)
         else .error (magicPanic ((bytesToWords data).getD 0 0))) := by
    intro ha h4
    rw [make_spirv_aligned addr data ha h4,
      head?_eq_getD_of_ne_nil _ (bytesToWords_ne_nil data hne h4)]
    show (if (bytesToWords data).getD 0 0 ≠ MAGIC_NUMBER
        then Except.error (magicPanic ((bytesToWords data).getD 0 0))
        else Except.ok (bytesToWords data)) = _
    by_cases hmw : (bytesToWords data).getD 0 0 = MAGIC_NUMBER
    · rw [if_neg (not_not_intro hmw), if_pos hmw]
    · rw [if_pos hmw, if_neg hmw]
  refine ⟨fun ha => make_spirv_offset_fail addr data hne ha,
    fun ha h4 => make_spirv_size_fail addr data ha h4, third, ?_,
    rfl, rfl, fun _ => rfl⟩
  constructor
  · rintro ⟨ws, hws⟩
    by_cases ha : addr % 4 = 0
    · by_cases h4 : data.length % 4 = 0
      · refine ⟨ha, h4, ?_⟩
        by_contra hmw
        rw [third ha h4, if_neg hmw] at hws
        exact Except.noConfusion hws
      · rw [make_spirv_size_fail addr data ha h4] at hws
        exact Except.noConfusion hws
    · rw [make_spirv_offset_fail addr data hne ha] at hws
      exact Except.noConfusion hws
  · rintro ⟨ha, h4, hmw⟩
    exact ⟨bytesToWords data, by rw [third ha h4, if_pos hmw]⟩

theorem make_spirv_checks_in_order_witness :
    make_spirv 1 [0] = .error offsetPanic :=
  (make_spirv_checks_in_order 1 [0] (by decide)).1 (by decide)

/-- C3 counterexample: the format panic's message is "wrong magic word "
followed by the word in hex and ". Make sure you are using a binary SPIRV
file.", not the message "wrong magic word, expected SPIR-V binary" stated by
the claim; shown concretely on the 4-byte all-zero input. -/
theorem make_spirv_magic_message_counterexample :
    make_spirv 0 [0, 0, 0, 0] =
      .error ⟨.formatError,
        "wrong magic word 0. Make sure you are using a binary SPIRV file."⟩ ∧
    ¬ (make_spirv 0 [0, 0, 0, 0] =
        .error ⟨.formatError, "wrong magic word, expected SPIR-V binary"⟩) := by
  have e : make_spirv 0 [0, 0, 0, 0] =
      .error ⟨.formatError,
        "wrong magic word 0. Make sure you are using a binary SPIRV file."⟩ :=
    rfl
  refine ⟨e, fun h => ?_⟩
  rw [e] at h
  simp only [Except.error.injEq, Panic.mk.injEq] at h
  exact absurd h.2 (by decide)

/-- C4: for empty input, `align_to` returns three empty parts, so both
alignment asserts pass vacuously; the `words[0]` read for the magic word then
indexes out of bounds — the empty input is rejected by none of the three
checks but by the out-of-bounds access at the `words[0]` read. -/
theorem make_spirv_empty_out_of_bounds (addr : Nat) :
    align_to_u32 addr [] = ([], [], []) ∧
    make_spirv addr [] = .error oobPanic ∧
    oobPanic.kind = .indexOutOfBounds ∧
    oobPanic ≠ offsetPanic ∧ oobPanic ≠ sizePanic ∧
    (∀ w, oobPanic ≠ magicPanic w) := by
  have halign : align_to_u32 addr [] = ([], [], []) := by
    simp [align_to_u32, bytesToWords]
  refine ⟨halign, ?_, rfl, by decide, by decide, ?_⟩
  · unfold make_spirv
    rw [halign]
    rfl
  · intro w
    simp [oobPanic, magicPanic]

end WgpuUtil

namespace Boids

def NUM_PARTICLES : Nat := 1500

def PARTICLES_PER_GROUP : Nat := 64

/-- A GPU buffer, modelled by its identity (the handle returned at creation)
together with the initial contents it was created with; `f32` literals of the
source are modelled as exact rationals. -/
structure Buffer where
  id : Nat
  contents : List ℚ
deriving DecidableEq

instance : Inhabited Buffer := ⟨⟨0, []⟩⟩

/-- Binding types of the compute bind group layout: binding 0 is a (read-only)
uniform buffer, bindings 1 and 2 are read-write storage buffers. -/
inductive BindingType
  | uniformBuffer (dynamic : Bool)
  | storageBuffer (dynamic : Bool) (readonly : Bool)
deriving DecidableEq

/-- One entry of a bind group: slot number, the layout's binding type, the
bound buffer's id, and the bound byte range. -/
structure Binding where
  binding : Nat
  ty : BindingType
  buffer : Nat
  rangeStart : Nat
  rangeEnd : Nat
deriving DecidableEq

structure BindGroup where
  bindings : List Binding
deriving DecidableEq

instance : Inhabited BindGroup := ⟨⟨[]⟩⟩

/-- The `Example` struct of `examples/boids/main.rs`; pipelines are modelled
by their handle ids. -/
structure Example where
  particle_bind_groups : List BindGroup
  particle_buffers : List Buffer
  vertices_buffer : Buffer
  compute_pipeline : Nat
  render_pipeline : Nat
  work_group_count : Nat
  frame_num : Nat
deriving DecidableEq

/-- The three 2d triangle vertices of each instance,
`[-0.01f32, -0.02, 0.01, -0.02, 0.00, 0.02]`. -/
def vertex_buffer_data : List ℚ := [-0.01, -0.02, 0.01, -0.02, 0.00, 0.02]

/-- The seven simulation-parameter floats:
deltaT, rule1Distance, rule2Distance, rule3Distance,
rule1Scale, rule2Scale, rule3Scale. -/
def sim_param_data : List ℚ := [0.04, 0.1, 0.025, 0.025, 0.02, 0.05, 0.005]

/-- The randomly initialised particle data, `4 * NUM_PARTICLES` floats in
chunks `(posx, posy, velx, vely)`; the random source is an explicit
parameter `rand`.  Chunk fields 0 and 1 are `2.0 * (rand - 0.5)`, fields 2
and 3 are `2.0 * (rand - 0.5) * 0.1`. -/
def initial_particle_data (rand : Nat → ℚ) : List ℚ :=
  (List.range (4 * NUM_PARTICLES)).map fun i =>
    if i % 4 < 2 then 2 * (rand i - 0.5) else 2 * (rand i - 0.5) * 0.1

/-- Buffer ids in creation order: the two pipelines, then `vertices_buffer`,
`sim_param_buffer`, and the two particle buffers. -/
def compute_pipeline_id : Nat := 0

def render_pipeline_id : Nat := 1

def vertices_buffer_init : Buffer := ⟨2, vertex_buffer_data⟩

def sim_param_buffer : Buffer := ⟨3, sim_param_data⟩

/-- The two particle buffers, both created from the same initial data. -/
def particle_buffers_init (rand : Nat → ℚ) : List Buffer :=
  [⟨4, initial_particle_data rand⟩, ⟨5, initial_particle_data rand⟩]

/-- Bind group `i` of the loop in `init`: binding 0 is the simulation
parameters uniform, binding 1 is particle buffer `i`, binding 2 is the
opposite particle buffer `(i + 1) % 2`. -/
def particle_bind_group (rand : Nat → ℚ) (i : Nat) : BindGroup :=
  ⟨[⟨0, .uniformBuffer false, sim_param_buffer.id,
      0, 4 * sim_param_data.length⟩,
    ⟨1, .storageBuffer false false,
      ((particle_buffers_init rand).getD i default).id,
      0, 4 * (initial_particle_data rand).length⟩,
    ⟨2, .storageBuffer false false,
      ((particle_buffers_init rand).getD ((i + 1) % 2) default).id,
      0, 4 * (initial_particle_data rand).length⟩]⟩

/-- The work group count of `init`:
`((NUM_PARTICLES as f32) / (PARTICLES_PER_GROUP as f32)).ceil() as u32`.
Both operands and the quotient `23.4375` are exactly representable in `f32`,
so the correctly rounded `f32` division is exact and is modelled by exact
rational division; `.ceil() as u32` is the integer ceiling, nonnegative here,
taken with `Int.toNat`. -/
def f32ceilU32 (q : ℚ) : Nat := (Int.ceil q).toNat

/-- A rational exactly representable as an IEEE-754 binary32 value: an
integer significand of magnitude below `2 ^ 24` scaled by a power of two in
the (sub)normal exponent range. -/
def repF32 (q : ℚ) : Prop :=
  ∃ m e : ℤ, m.natAbs < 2 ^ 24 ∧ -149 ≤ e ∧ e ≤ 104 ∧ q = (m : ℚ) * 2 ^ e

/-- `Example::init`: builds the pipelines, the vertex/uniform/particle
buffers, the two bind groups, the work group count, and starts the frame
counter at 0. -/
def init (rand : Nat → ℚ) : Example where
  particle_bind_groups := [particle_bind_group rand 0, particle_bind_group rand 1]
  particle_buffers := particle_buffers_init rand
  vertices_buffer := vertices_buffer_init
  compute_pipeline := compute_pipeline_id
  render_pipeline := render_pipeline_id
  work_group_count :=
    f32ceilU32 ((NUM_PARTICLES : ℚ) / (PARTICLES_PER_GROUP : ℚ))
  frame_num := 0

/-- Commands recorded on the command encoder during `render`, in order. -/
inductive Cmd
  | beginComputePass
  | setComputePipeline (p : Nat)
  | setBindGroup (index : Nat) (group : BindGroup) (offsets : List Nat)
  | dispatch (x y z : Nat)
  | beginRenderPass
  | setRenderPipeline (p : Nat)
  | setVertexBuffers (startSlot : Nat) (buffers : List (Nat × Nat))
  | draw (vertices : Nat × Nat) (instances : Nat × Nat)
deriving DecidableEq

/-- `Example::render`: records one compute pass (pipeline, bind group chosen
by `frame_num % 2`, one dispatch of `work_group_count × 1 × 1` groups)
followed by one render pass (pipeline, vertex buffers: the particle buffer
`(frame_num + 1) % 2` for per-instance data then the triangle vertices
buffer, one draw of vertices `0..3` over instances `0..NUM_PARTICLES`),
then increments `frame_num`.  Returns the successor state and the command
list of the submitted command buffer. -/
def render (self : Example) : Example × List Cmd :=
  ({ self with frame_num := self.frame_num + 1 },
   [.beginComputePass,
    .setComputePipeline self.compute_pipeline,
    .setBindGroup 0 (self.particle_bind_groups.getD (self.frame_num % 2) default) [],
    .dispatch self.work_group_count 1 1,
    .beginRenderPass,
    .setRenderPipeline self.render_pipeline,
    .setVertexBuffers 0
      [((self.particle_buffers.getD ((self.frame_num + 1) % 2) default).id, 0),
       (self.vertices_buffer.id, 0)],
    .draw (0, 3) (0, NUM_PARTICLES)])

/-- `k` successive frames starting from state `s`. -/
def stepN (s : Example) : Nat → Example
  | 0 => s
  | k + 1 => (render (stepN s k)).1

/-- Bind groups set by the commands, in order. -/
def boundGroups (cmds : List Cmd) : List BindGroup :=
  cmds.filterMap fun c =>
    match c with
    | .setBindGroup _ g _ => some g
    | _ => none

/-- Work-group x-counts of the dispatch commands, in order. -/
def dispatchCounts (cmds : List Cmd) : List Nat :=
  cmds.filterMap fun c =>
    match c with
    | .dispatch x _ _ => some x
    | _ => none

/-- The buffer id bound at vertex-buffer slot 0 (the per-instance particle
data) of each `setVertexBuffers` command, in order. -/
def instanceSourceIds (cmds : List Cmd) : List Nat :=
  cmds.filterMap fun c =>
    match c with
    | .setVertexBuffers _ bufs => (bufs.getD 0 default).1
    | _ => none

/-- The buffer id bound at vertex-buffer slot 1 (the per-vertex triangle
shape) of each `setVertexBuffers` command, in order. -/
def vertexShapeIds (cmds : List Cmd) : List Nat :=
  cmds.filterMap fun c =>
    match c with
    | .setVertexBuffers _ bufs => (bufs.getD 1 default).1
    | _ => none

/-- The draw commands, in order. -/
def drawCmds (cmds : List Cmd) : List Cmd :=
  cmds.filter fun c =>
    match c with
    | .draw _ _ => true
    | _ => false

def isDispatchCmd : Cmd → Bool
  | .dispatch _ _ _ => true
  | _ => false

def isDrawCmd : Cmd → Bool
  | .draw _ _ => true
  | _ => false

theorem render_fst (s : Example) :
    (render s).1 = { s with frame_num := s.frame_num + 1 } := rfl

theorem stepN_fields (s : Example) (k : Nat) :
    stepN s k = { s with frame_num := s.frame_num + k } := by
  induction k with
  | zero => rfl
  | succ n ih =>
      show (render (stepN s n)).1 = _
      rw [ih, render_fst]
      simp [Nat.add_assoc]

theorem stepN_init_frame_num (rand : Nat → ℚ) (k : Nat) :
    (stepN (init rand) k).frame_num = k := by
  rw [stepN_fields]
  show (init rand).frame_num + k = k
  rw [show (init rand).frame_num = 0 from rfl]
  omega

/-- C10: a frame step mutates only the frame counter: the bind groups, the
particle buffers, the vertices buffer, both pipelines and the work group
count of the owning struct are unchanged by every `render` call, and the
frame counter goes up by exactly 1. -/
theorem render_mutates_only_frame_num (s : Example) :
    ((render s).1.particle_bind_groups = s.particle_bind_groups) ∧
    ((render s).1.particle_buffers = s.particle_buffers) ∧
    ((render s).1.vertices_buffer = s.vertices_buffer) ∧
    ((render s).1.compute_pipeline = s.compute_pipeline) ∧
    ((render s).1.render_pipeline = s.render_pipeline) ∧
    ((render s).1.work_group_count = s.work_group_count) ∧
    ((render s).1.frame_num = s.frame_num + 1) :=
  ⟨rfl, rfl, rfl, rfl, rfl, rfl, rfl⟩

/-- C6: the frame counter starts at 0, each `render` call increments it by
exactly 1, and the commands a frame issues depend on the counter only
through its parity: replacing the counter by `frame_num % 2` yields the
identical command list. -/
theorem frame_counter_zero_inc_parity_only :
    (∀ rand, (init rand).frame_num = 0) ∧
    (∀ s : Example, (render s).1.frame_num = s.frame_num + 1) ∧
    (∀ s : Example,
      (render s).2 = (render { s with frame_num := s.frame_num % 2 }).2) := by
  refine ⟨fun _ => rfl, fun _ => rfl, fun s => ?_⟩
  have h1 : s.frame_num % 2 % 2 = s.frame_num % 2 := by omega
  have h2 : (s.frame_num % 2 + 1) % 2 = (s.frame_num + 1) % 2 := by omega
  simp [render, h1, h2]

/-- C5: every frame step issues exactly one compute dispatch and exactly one
draw call, and the dispatch is recorded before the draw in the frame's
command list. -/
theorem one_dispatch_before_one_draw (s : Example) :
    ((render s).2.filter isDispatchCmd).length = 1 ∧
    ((render s).2.filter isDrawCmd).length = 1 ∧
    (render s).2.findIdx isDispatchCmd < (render s).2.findIdx isDrawCmd := by
  refine ⟨rfl, rfl, ?_⟩
  show (3 : Nat) < 7
  decide

theorem stepN_init (rand : Nat → ℚ) (k : Nat) :
    stepN (init rand) k = { init rand with frame_num := k } := by
  rw [stepN_fields]
  congr 1
  exact Nat.zero_add k

/-- C1: in the frame with counter value `k`, the compute pass binds bind
group `k % 2`, the draw call sources its per-instance data from particle
buffer `(k + 1) % 2`, the two indices always differ, and the two buffers so
selected are never the same buffer. -/
theorem render_source_indices_disjoint (rand : Nat → ℚ) (k : Nat) :
    (stepN (init rand) k).frame_num = k ∧
    boundGroups (render (stepN (init rand) k)).2 =
      [(init rand).particle_bind_groups.getD (k % 2) default] ∧
    instanceSourceIds (render (stepN (init rand) k)).2 =
      [((init rand).particle_buffers.getD ((k + 1) % 2) default).id] ∧
    k % 2 ≠ (k + 1) % 2 ∧
    ((init rand).particle_buffers.getD (k % 2) default).id ≠
      ((init rand).particle_buffers.getD ((k + 1) % 2) default).id := by
  rw [stepN_init]
  refine ⟨rfl, ?_, ?_, by omega, ?_⟩
  · simp [render, boundGroups]
  · simp [render, instanceSourceIds]
  · rcases Nat.mod_two_eq_zero_or_one k with h | h
    · have h' : (k + 1) % 2 = 1 := by omega
      norm_num [h, h', init, particle_buffers_init, List.getD]
    · have h' : (k + 1) % 2 = 0 := by omega
      norm_num [h, h', init, particle_buffers_init, List.getD]

/-- C7: exactly two bind-group configurations are built at `init`;
configuration `i` binds the simulation-parameters buffer as a read-only
uniform, particle buffer `i`, and the complementary particle buffer
`(i + 1) % 2`; and no frame step rebuilds or mutates either configuration.
-/
theorem two_bind_group_configs_fixed (rand : Nat → ℚ) (i : Fin 2) (k : Nat) :
    (init rand).particle_bind_groups.length = 2 ∧
    (init rand).particle_bind_groups.getD (i : Nat) default =
      particle_bind_group rand (i : Nat) ∧
    particle_bind_group rand (i : Nat) =
      ⟨[⟨0, .uniformBuffer false, sim_param_buffer.id,
          0, 4 * sim_param_data.length⟩,
        ⟨1, .storageBuffer false false,
          ((particle_buffers_init rand).getD (i : Nat) default).id,
          0, 4 * (initial_particle_data rand).length⟩,
        ⟨2, .storageBuffer false false,
          ((particle_buffers_init rand).getD (((i : Nat) + 1) % 2) default).id,
          0, 4 * (initial_particle_data rand).length⟩]⟩ ∧
    (stepN (init rand) k).particle_bind_groups =
      (init rand).particle_bind_groups := by
  refine ⟨rfl, ?_, rfl, ?_⟩
  · fin_cases i <;> rfl
  · rw [stepN_init]

/-- C9: every frame's draw call covers vertices `0..3` (3 vertices per
instance) over instances `0..NUM_PARTICLES` (`N = 1500`), and the per-vertex
attribute stream is the vertices buffer built once at `init` from the fixed
3-vertex (6-float) triangle shape, the same buffer in every frame. -/
theorem draw_fixed_triangle_all_instances (rand : Nat → ℚ) (k : Nat) :
    drawCmds (render (stepN (init rand) k)).2 =
      [Cmd.draw (0, 3) (0, NUM_PARTICLES)] ∧
    NUM_PARTICLES = 1500 ∧
    vertexShapeIds (render (stepN (init rand) k)).2 =
      [vertices_buffer_init.id] ∧
    (stepN (init rand) k).vertices_buffer = vertices_buffer_init ∧
    vertices_buffer_init.contents = vertex_buffer_data ∧
    vertex_buffer_data.length = 3 * 2 := by
  rw [stepN_init]
  refine ⟨?_, rfl, ?_, rfl, rfl, rfl⟩
  · simp [render, drawCmds]
  · simp [render, vertexShapeIds, init]

/-- C8: each frame dispatches exactly `work_group_count` work groups, and
that count is the ceiling of `N / GROUP_SIZE`: for the configured
`N = 1500`, `GROUP_SIZE = 64` it is `24`, and for `N = 4` the same formula
gives `1`; the operands and exact quotients of both cases are exactly
representable in binary32, so the code's correctly rounded `f32` computation
agrees with the exact integer ceiling modelled here. -/
theorem work_group_count_matches_ceil (rand : Nat → ℚ) (k : Nat) :
    dispatchCounts (render (stepN (init rand) k)).2 =
      [(init rand).work_group_count] ∧
    (init rand).work_group_count = 24 ∧
    (24 : ℕ) = ⌈(NUM_PARTICLES : ℚ) / (PARTICLES_PER_GROUP : ℚ)⌉₊ ∧
    f32ceilU32 ((4 : ℚ) / (64 : ℚ)) = 1 ∧
    (1 : ℕ) = ⌈(4 : ℚ) / (64 : ℚ)⌉₊ ∧
    repF32 ((NUM_PARTICLES : ℚ) / (PARTICLES_PER_GROUP : ℚ)) ∧
    repF32 ((4 : ℚ) / (64 : ℚ)) ∧
    repF32 (NUM_PARTICLES : ℚ) ∧ repF32 (PARTICLES_PER_GROUP : ℚ) ∧
    repF32 (4 : ℚ) ∧ repF32 (64 : ℚ) := by
  have hq : (NUM_PARTICLES : ℚ) / (PARTICLES_PER_GROUP : ℚ) = 1500 / 64 := by
    norm_num [NUM_PARTICLES, PARTICLES_PER_GROUP]
  have hceil : (⌈(1500 : ℚ) / 64⌉ : ℤ) = 24 := by
    rw [Int.ceil_eq_iff]
    norm_num
  have hceil4 : (⌈(4 : ℚ) / 64⌉ : ℤ) = 1 := by
    rw [Int.ceil_eq_iff]
    norm_num
  have hwgc : (init rand).work_group_count = 24 := by
    show f32ceilU32 ((NUM_PARTICLES : ℚ) / (PARTICLES_PER_GROUP : ℚ)) = 24
    unfold f32ceilU32
    rw [hq, hceil]
    rfl
  refine ⟨?_, hwgc, ?_, ?_, ?_, ?_, ?_, ?_, ?_, ?_, ?_⟩
  · rw [stepN_init]
    simp [render, dispatchCounts]
  · rw [hq, eq_comm, Nat.ceil_eq_iff (by norm_num)]
    norm_num
  · unfold f32ceilU32
    rw [hceil4]
    rfl
  · rw [eq_comm, Nat.ceil_eq_iff (by norm_num)]
    norm_num
  · exact ⟨375, -4, by norm_num, by norm_num, by norm_num,
      by rw [hq]; norm_num [zpow_neg]⟩
  · exact ⟨1, -4, by norm_num, by norm_num, by norm_num,
      by norm_num [zpow_neg]⟩
  · exact ⟨1500, 0, by norm_num, by norm_num, by norm_num,
      by norm_num [NUM_PARTICLES]⟩
  · exact ⟨64, 0, by norm_num, by norm_num, by norm_num,
      by norm_num [PARTICLES_PER_GROUP]⟩
  · exact ⟨4, 0, by norm_num, by norm_num, by norm_num, by norm_num⟩
  · exact ⟨64, 0, by norm_num, by norm_num, by norm_num, by norm_num⟩

end Boids
